import Mathlib

/-!
Verification of the SrSENet training script (`src/train.py`).

The script is a thin orchestration layer around the deep-learning
framework: it parses flags, optionally restores a checkpoint, and runs a
per-epoch training loop that logs the loss every 10th iteration and saves
a checkpoint at the end of every epoch.  We embed its observable control
flow as a pure function from the parsed options and an abstract
environment (file system, checkpoint contents, dataset) to either a
raised error or a trace of the run.

Framework-owned numerics (tensor contents, autodiff, the Adam update,
the Charbonnier loss value) are not modelled: no claim depends on them.
Tensors are abstracted to identifiers; what the embedding keeps is which
tensor of each batch is selected as input and as label, which steps log,
and which checkpoints are saved.
-/

namespace SrSENet

/-- Tensors are abstracted to identifiers: the claims only concern which
tensor of a batch is selected, never its numeric content. -/
abbrev Tensor := Nat

/-- A batch, as produced by the data loader: a tuple of tensors indexed
by position (`batch[0]`, `batch[1]`, ...). -/
abbrev Batch := List Tensor

/-- A model parameter mapping, as stored under a checkpoint's
`"state_dict"` key (`torch.load` / `model.load_state_dict`). -/
abbrev StateDict := List (String × Int)

/-- A saved model object: the pretrained path's checkpoints wrap a whole
model under `"state_dict"`, and `weights['state_dict'].state_dict()`
extracts its parameters. -/
structure ModelObj where
  sd : StateDict
deriving Repr, DecidableEq

/-- The shape of a loaded checkpoint's `"state_dict"` entry: either a
plain state dict (what `model.load_state_dict` accepts on the resume
path, train.py line 68) or a nested model object (what
`.state_dict()` is called on, on the pretrained path, line 77). -/
inductive SdEntry where
  | raw (sd : StateDict)
  | wrapped (m : ModelObj)
deriving Repr, DecidableEq

/-- The result of `torch.load` on a checkpoint file: an `"epoch"` entry
and a `"state_dict"` entry (train.py lines 66-68, 76-77). -/
structure LoadedCkpt where
  epoch : Int
  state_dict : SdEntry
deriving Repr, DecidableEq

/-- The parsed command-line options (train.py lines 15-32), with the
parser's defaults.  Fields that no claim observes (`lr`, `momentum`,
`weight_decay`, `use_se`, `gpus`, `threads`, `batchSize`, `blocks`,
`step`) do not influence the modelled control flow and are omitted. -/
structure Options where
  rate : Nat := 2
  nEpochs : Int := 300
  cuda : Bool := false
  resume : String := ""
  start_epoch : Int := 1
  pretrained : String := ""
  datasets : String := ""
deriving Repr, DecidableEq

/-- The abstract environment the script runs in: CUDA availability
(`torch.cuda.is_available()`), the file-existence predicate
(`os.path.isfile`), the contents `torch.load` would return for a path,
the model's initial (randomly initialized) parameters, and the dataset.

`dataset p` models `DatasetFromHdf5(p)` together with the `DataLoader`
over it.  The dataset class lives in `data.py`, which is not part of the
visible sources; modelled from the spec: a missing or malformed file
fails at construction or first access with an I/O/format error
(`Except.error`), otherwise the loader yields a finite sequence of
batches.  The loader's per-epoch reshuffling only permutes batch order
within an epoch and is not modelled; no claim depends on batch order. -/
structure Env where
  cudaAvailable : Bool
  isFile : String → Bool
  load : String → LoadedCkpt
  initSd : StateDict
  dataset : String → Except String (List Batch)

/-- The ways the modelled part of the script can raise. -/
inductive MainError where
  | noGPU
  | datasetError (msg : String)
  | loadTypeError (msg : String)
deriving Repr, DecidableEq

/-- `int(math.sqrt(rate))` (train.py line 106).  For the small upscale
rates the script supports (2, 3, 4) the IEEE-754 `math.sqrt` is exact
enough that flooring it agrees with the integer square root. -/
def labelIndex (rate : Nat) : Nat := Nat.sqrt rate

/-- One `logger.add_scalar` call (train.py line 124): stream name and
step index.  The logged loss value is framework numerics and is not
modelled. -/
structure LogEvent where
  name : String
  step : Int
deriving Repr, DecidableEq

/-- What one iteration of the batch loop (train.py lines 102-124) does,
as far as the claims observe it: the 1-based iteration counter
(`enumerate(training_data_loader, 1)`), the batch, the tensors selected
as input (`batch[0]`) and label (`batch[int(math.sqrt(opt.rate))]`),
and the log event emitted if any. -/
structure IterRecord where
  iteration : Nat
  batch : Batch
  input : Option Tensor
  label : Option Tensor
  log : Option LogEvent
deriving Repr, DecidableEq

/-- The trace of one call to `train(...)` (train.py lines 97-126): the
epoch, the per-iteration records in order, and the checkpoint saved at
the end (`save_checkpoint(model, opt.rate, epoch)`, line 126) tagged
with rate and epoch. -/
structure EpochTrace where
  epoch : Int
  iters : List IterRecord
  save : Nat × Int
deriving Repr, DecidableEq

/-- The batch loop `for iteration, batch in enumerate(training_data_loader, 1)`
(train.py line 102), with `k` the next value of the 1-based counter and
`n = len(training_data_loader)` the batch count used in the logging step
index `len(training_data_loader) * epoch + iteration` (line 124).
A log event is emitted iff `iteration % 10 == 0` (line 121). -/
def iterRecords (rate : Nat) (n : Nat) (epoch : Int) : Nat → List Batch → List IterRecord
  | _, [] => []
  | k, b :: bs =>
      { iteration := k
        batch := b
        input := b[0]?
        label := b[labelIndex rate]?
        log := if k % 10 = 0 then
                 some { name := "loss", step := (n : Int) * epoch + (k : Int) }
               else none } :: iterRecords rate n epoch (k + 1) bs

/-- One call to `train(training_data_loader, optimizer, model, criterion, epoch)`
(train.py lines 97-126): iterate the loader once, then save a checkpoint
unconditionally. -/
def trainEpoch (rate : Nat) (batches : List Batch) (epoch : Int) : EpochTrace :=
  { epoch := epoch
    iters := iterRecords rate batches.length epoch 1 batches
    save := (rate, epoch) }

/-- Python's `range(a, b)` over integers with step 1, as used by
`for epoch in range(opt.start_epoch, opt.nEpochs + 1)` (train.py
line 93): empty when `b ≤ a`. -/
def pythonRange (a b : Int) : List Int :=
  (List.range (b - a).toNat).map (fun (i : Nat) => a + (i : Int))

/-- The observable outcome of a completed run of `main()`: the start
epoch after optional resume, the model parameters entering the training
loop, the missing-file warnings printed, the batch count, and the epochs
executed with their traces. -/
structure RunTrace where
  startEpoch : Int
  modelSd : StateDict
  warnings : List String
  numBatches : Nat
  epochs : List Int
  epochTraces : List EpochTrace
deriving Repr, DecidableEq

/-- The resume block (train.py lines 63-70): if `--resume` is a
non-empty path naming an existing file, load it, set
`opt.start_epoch = checkpoint["epoch"] + 1` and
`model.load_state_dict(checkpoint["state_dict"])` — which raises unless
the entry is a plain state dict; if the path does not exist, print a
warning and continue unchanged. -/
def resumePhase (opt : Options) (env : Env) (sd0 : StateDict) :
    Except MainError (Int × StateDict × List String) :=
  if opt.resume ≠ "" then
    if env.isFile opt.resume then
      let checkpoint := env.load opt.resume
      match checkpoint.state_dict with
      | SdEntry.raw sd => Except.ok (checkpoint.epoch + 1, sd, [])
      | SdEntry.wrapped _ =>
          Except.error (MainError.loadTypeError "load_state_dict expected a state dict")
    else
      Except.ok (opt.start_epoch, sd0, ["=> no checkpoint found at " ++ opt.resume])
  else
    Except.ok (opt.start_epoch, sd0, [])

/-- The pretrained block (train.py lines 73-79): if `--pretrained` is a
non-empty path naming an existing file, load it and run
`model.load_state_dict(weights['state_dict'].state_dict())` — which
raises unless the entry wraps a model object; if the path does not
exist, print a warning and continue unchanged.  `opt.start_epoch` is
not touched here, and the optimizer is only constructed later
(line 90), so this block cannot affect optimizer state. -/
def pretrainedPhase (opt : Options) (env : Env) (sd1 : StateDict) :
    Except MainError (StateDict × List String) :=
  if opt.pretrained ≠ "" then
    if env.isFile opt.pretrained then
      let weights := env.load opt.pretrained
      match weights.state_dict with
      | SdEntry.wrapped m => Except.ok (m.sd, [])
      | SdEntry.raw _ =>
          Except.error (MainError.loadTypeError "state dict object has no attribute state_dict")
    else
      Except.ok (sd1, ["=> no model found at " ++ opt.pretrained])
  else
    Except.ok (sd1, [])

/-- `main()` (train.py lines 35-94), in source order: the CUDA check
(lines 42-44) raises first; then the dataset is constructed
(lines 53-56); then the model is built with its random initial weights
(line 59); then the resume and pretrained blocks run; finally the
training loop `for epoch in range(opt.start_epoch, opt.nEpochs + 1)`
executes (lines 93-94).  Device placement (lines 81-87) and the Adam
construction (line 90) have no observable effect on the modelled
trace. -/
def mainRun (opt : Options) (env : Env) : Except MainError RunTrace :=
  if opt.cuda && !env.cudaAvailable then
    Except.error MainError.noGPU
  else
    match env.dataset opt.datasets with
    | Except.error e => Except.error (MainError.datasetError e)
    | Except.ok batches =>
      match resumePhase opt env env.initSd with
      | Except.error e => Except.error e
      | Except.ok (startEpoch, sd1, warns1) =>
        match pretrainedPhase opt env sd1 with
        | Except.error e => Except.error e
        | Except.ok (sd2, warns2) =>
          let epochs := pythonRange startEpoch (opt.nEpochs + 1)
          Except.ok
            { startEpoch := startEpoch
              modelSd := sd2
              warnings := warns1 ++ warns2
              numBatches := batches.length
              epochs := epochs
              epochTraces := epochs.map (trainEpoch opt.rate batches) }

/-- The step index of an iteration's log event, when it emitted one. -/
def stepOf (r : IterRecord) : Option Int := r.log.map LogEvent.step

/-- The step indices logged during one epoch, in emission order. -/
def EpochTrace.logSteps (et : EpochTrace) : List Int :=
  et.iters.filterMap stepOf

/-- All step indices logged during a run, in emission order, across all
epochs. -/
def RunTrace.logSteps (t : RunTrace) : List Int :=
  t.epochTraces.flatMap EpochTrace.logSteps

/-- The checkpoints saved during a run, in order: `(rate, epoch)` pairs. -/
def RunTrace.saves (t : RunTrace) : List (Nat × Int) :=
  t.epochTraces.map EpochTrace.save

/-! ### Concrete fixtures

Small concrete option records, environments and traces used to exercise
the theorems on closed inputs. -/

def sdInit : StateDict := [("conv1.weight", 0)]
def sdCkpt : StateDict := [("conv1.weight", 5)]
def sdPre : StateDict := [("conv1.weight", 9)]

def demoBatches : List Batch := [[100, 101, 102], [200, 201, 202]]

/-- Twelve three-tensor batches, enough for the 10th-iteration logging
to fire. -/
def bigBatches : List Batch :=
  (List.range 12).map (fun (i : Nat) => [i, i + 100, i + 200])

/-- A filesystem holding one resume-style checkpoint at epoch 3. -/
def envResume : Env :=
  { cudaAvailable := false
    isFile := fun p => p == "model_epoch_3.pth"
    load := fun _ => { epoch := 3, state_dict := SdEntry.raw sdCkpt }
    initSd := sdInit
    dataset := fun _ => Except.ok demoBatches }

def optResume : Options := { resume := "model_epoch_3.pth", nEpochs := 5, start_epoch := 100 }

def traceResume : RunTrace :=
  { startEpoch := 4
    modelSd := sdCkpt
    warnings := []
    numBatches := 2
    epochs := pythonRange 4 6
    epochTraces := (pythonRange 4 6).map (trainEpoch 2 demoBatches) }

/-- A run with neither `--resume` nor `--pretrained`, over the larger
dataset. -/
def envPlain : Env :=
  { cudaAvailable := false
    isFile := fun _ => false
    load := fun _ => { epoch := 0, state_dict := SdEntry.raw [] }
    initSd := sdInit
    dataset := fun _ => Except.ok bigBatches }

def optPlain : Options := { nEpochs := 2 }

def tracePlain : RunTrace :=
  { startEpoch := 1
    modelSd := sdInit
    warnings := []
    numBatches := 12
    epochs := pythonRange 1 3
    epochTraces := (pythonRange 1 3).map (trainEpoch 2 bigBatches) }

/-- Both checkpoint flags name paths that do not exist. -/
def optMissing : Options :=
  { resume := "absent.pth", pretrained := "also_absent.pth", nEpochs := 2 }

/-- A filesystem holding one pretrained-style checkpoint (a wrapped
model object). -/
def envPre : Env :=
  { cudaAvailable := false
    isFile := fun p => p == "srsenet_pre.pth"
    load := fun _ => { epoch := 0, state_dict := SdEntry.wrapped { sd := sdPre } }
    initSd := sdInit
    dataset := fun _ => Except.ok demoBatches }

/-- The same filesystem, but the pretrained path holds a resume-style
(plain state dict) checkpoint. -/
def envPreRaw : Env :=
  { cudaAvailable := false
    isFile := fun p => p == "srsenet_pre.pth"
    load := fun _ => { epoch := 0, state_dict := SdEntry.raw sdCkpt }
    initSd := sdInit
    dataset := fun _ => Except.ok demoBatches }

def optPre : Options := { pretrained := "srsenet_pre.pth", nEpochs := 4 }

def tracePre : RunTrace :=
  { startEpoch := 1
    modelSd := sdPre
    warnings := []
    numBatches := 2
    epochs := pythonRange 1 5
    epochTraces := (pythonRange 1 5).map (trainEpoch 2 demoBatches) }

/-- CUDA requested but unavailable. -/
def optCuda : Options := { cuda := true }

def envNoGPU : Env :=
  { cudaAvailable := false
    isFile := fun _ => false
    load := fun _ => { epoch := 0, state_dict := SdEntry.raw [] }
    initSd := sdInit
    dataset := fun _ => Except.error "would not even be reached" }

/-- The dataset path does not exist: the HDF5 open fails. -/
def envBadData : Env :=
  { cudaAvailable := false
    isFile := fun _ => false
    load := fun _ => { epoch := 0, state_dict := SdEntry.raw [] }
    initSd := sdInit
    dataset := fun _ => Except.error "unable to open file" }

def optData : Options := { datasets := "missing.h5" }

/-- A filesystem with no checkpoint files at all, but a working dataset. -/
def envMissing : Env :=
  { cudaAvailable := false
    isFile := fun _ => false
    load := fun _ => { epoch := 0, state_dict := SdEntry.raw [] }
    initSd := sdInit
    dataset := fun _ => Except.ok demoBatches }

def traceMissing : RunTrace :=
  { startEpoch := 1
    modelSd := sdInit
    warnings := ["=> no checkpoint found at absent.pth", "=> no model found at also_absent.pth"]
    numBatches := 2
    epochs := pythonRange 1 3
    epochTraces := (pythonRange 1 3).map (trainEpoch 2 demoBatches) }

/-- The first iteration record of epoch 4 of the resumed demo run. -/
def iterDemoResume : IterRecord :=
  { iteration := 1
    batch := [100, 101, 102]
    input := some 100
    label := [100, 101, 102][labelIndex 2]?
    log := none }

/-- The first iteration record of epoch 1 of the plain demo run. -/
def iterDemoPlain : IterRecord :=
  { iteration := 1
    batch := [0, 100, 200]
    input := some 0
    label := [0, 100, 200][labelIndex 2]?
    log := none }

/-! ### Properties of `pythonRange` -/

theorem mem_pythonRange (a b x : Int) : x ∈ pythonRange a b ↔ a ≤ x ∧ x < b := by
  simp only [pythonRange, List.mem_map, List.mem_range]
  constructor
  · rintro ⟨i, hi, rfl⟩; omega
  · rintro ⟨h1, h2⟩; exact ⟨(x - a).toNat, by omega, by omega⟩

theorem pythonRange_eq (a b : Int) :
    pythonRange a b = if a < b then a :: pythonRange (a + 1) b else [] := by
  by_cases h : a < b
  · rw [if_pos h]
    unfold pythonRange
    have hn : (b - a).toNat = (b - (a + 1)).toNat + 1 := by omega
    rw [hn, List.range_succ_eq_map, List.map_cons, List.map_map]
    simp only [Nat.cast_zero, add_zero]
    congr 1
    apply List.map_congr_left
    intro i _
    simp only [Function.comp_apply, Nat.succ_eq_add_one]
    push_cast
    ring
  · rw [if_neg h]
    unfold pythonRange
    have hn : (b - a).toNat = 0 := by omega
    rw [hn]
    rfl

theorem pythonRange_chain (a b : Int) :
    (pythonRange a b).Chain' (fun x y => y = x + 1) := by
  generalize hn : (b - a).toNat = n
  induction n generalizing a with
  | zero =>
    rw [pythonRange_eq, if_neg (by omega)]
    exact List.chain'_nil
  | succ n ih =>
    rw [pythonRange_eq, if_pos (by omega)]
    have h2 : (b - (a + 1)).toNat = n := by omega
    have tail := ih (a + 1) h2
    rcases h3 : pythonRange (a + 1) b with _ | ⟨c, cs⟩
    · simp
    · rw [h3] at tail
      refine List.chain'_cons.mpr ⟨?_, tail⟩
      rw [pythonRange_eq] at h3
      by_cases h4 : a + 1 < b
      · rw [if_pos h4] at h3
        exact (List.cons.injEq _ _ _ _ ▸ h3).1.symm
      · rw [if_neg h4] at h3; cases h3

theorem pythonRange_head (a b : Int) (h : a < b) :
    (pythonRange a b).head? = some a := by
  rw [pythonRange_eq, if_pos h, List.head?_cons]

theorem pythonRange_pairwise (a b : Int) :
    (pythonRange a b).Pairwise (· < ·) := by
  rw [← List.chain'_iff_pairwise]
  exact (pythonRange_chain a b).imp (fun h => by omega)

theorem pythonRange_empty (a b : Int) (h : b ≤ a) : pythonRange a b = [] := by
  rw [pythonRange_eq, if_neg (by omega)]

/-! ### Inversion lemmas for the phases of `main()` -/

theorem resumePhase_skip (opt : Options) (env : Env) (sd0 : StateDict)
    (hne : opt.resume = "") :
    resumePhase opt env sd0 = Except.ok (opt.start_epoch, sd0, []) := by
  simp [resumePhase, hne]

theorem resumePhase_missing (opt : Options) (env : Env) (sd0 : StateDict)
    (hne : opt.resume ≠ "") (hfile : env.isFile opt.resume = false) :
    resumePhase opt env sd0 =
      Except.ok (opt.start_epoch, sd0, ["=> no checkpoint found at " ++ opt.resume]) := by
  simp [resumePhase, hne, hfile]

theorem resumePhase_raw (opt : Options) (env : Env) (sd0 sd : StateDict)
    (hne : opt.resume ≠ "") (hfile : env.isFile opt.resume = true)
    (hraw : (env.load opt.resume).state_dict = SdEntry.raw sd) :
    resumePhase opt env sd0 = Except.ok ((env.load opt.resume).epoch + 1, sd, []) := by
  simp [resumePhase, hne, hfile, hraw]

theorem pretrainedPhase_skip (opt : Options) (env : Env) (sd1 : StateDict)
    (hne : opt.pretrained = "") :
    pretrainedPhase opt env sd1 = Except.ok (sd1, []) := by
  simp [pretrainedPhase, hne]

theorem pretrainedPhase_missing (opt : Options) (env : Env) (sd1 : StateDict)
    (hne : opt.pretrained ≠ "") (hfile : env.isFile opt.pretrained = false) :
    pretrainedPhase opt env sd1 =
      Except.ok (sd1, ["=> no model found at " ++ opt.pretrained]) := by
  simp [pretrainedPhase, hne, hfile]

theorem pretrainedPhase_wrapped (opt : Options) (env : Env) (sd1 : StateDict) (m : ModelObj)
    (hne : opt.pretrained ≠ "") (hfile : env.isFile opt.pretrained = true)
    (hwrap : (env.load opt.pretrained).state_dict = SdEntry.wrapped m) :
    pretrainedPhase opt env sd1 = Except.ok (m.sd, []) := by
  simp [pretrainedPhase, hne, hfile, hwrap]

theorem pretrainedPhase_raw (opt : Options) (env : Env) (sd1 sd : StateDict)
    (hne : opt.pretrained ≠ "") (hfile : env.isFile opt.pretrained = true)
    (hraw : (env.load opt.pretrained).state_dict = SdEntry.raw sd) :
    pretrainedPhase opt env sd1 =
      Except.error (MainError.loadTypeError "state dict object has no attribute state_dict") := by
  simp [pretrainedPhase, hne, hfile, hraw]

/-- Any successful run decomposes into: a passed CUDA check, a dataset,
a resume phase, a pretrained phase, and the epoch loop over
`range(start_epoch, nEpochs + 1)`. -/
theorem mainRun_ok_inv (opt : Options) (env : Env) (t : RunTrace)
    (h : mainRun opt env = Except.ok t) :
    ∃ (batches : List Batch) (startEpoch : Int) (sd1 : StateDict) (warns1 : List String)
      (sd2 : StateDict) (warns2 : List String),
      (opt.cuda && !env.cudaAvailable) = false ∧
      env.dataset opt.datasets = Except.ok batches ∧
      resumePhase opt env env.initSd = Except.ok (startEpoch, sd1, warns1) ∧
      pretrainedPhase opt env sd1 = Except.ok (sd2, warns2) ∧
      t = { startEpoch := startEpoch
            modelSd := sd2
            warnings := warns1 ++ warns2
            numBatches := batches.length
            epochs := pythonRange startEpoch (opt.nEpochs + 1)
            epochTraces :=
              (pythonRange startEpoch (opt.nEpochs + 1)).map (trainEpoch opt.rate batches) } := by
  unfold mainRun at h
  split at h
  · exact absurd h (by simp)
  next hcuda =>
    split at h
    · exact absurd h (by simp)
    next batches hds =>
      split at h
      · exact absurd h (by simp)
      next startEpoch sd1 warns1 hres =>
        split at h
        · exact absurd h (by simp)
        next sd2 warns2 hpre =>
          refine ⟨batches, startEpoch, sd1, warns1, sd2, warns2, ?_, hds, hres, hpre, ?_⟩
          · simpa using hcuda
          · exact (Except.ok.injEq _ _ ▸ h).symm

/-- Building a successful run from the outcomes of its phases. -/
theorem mainRun_ok_build (opt : Options) (env : Env)
    (batches : List Batch) (startEpoch : Int) (sd1 : StateDict) (warns1 : List String)
    (sd2 : StateDict) (warns2 : List String)
    (hcuda : (opt.cuda && !env.cudaAvailable) = false)
    (hds : env.dataset opt.datasets = Except.ok batches)
    (hres : resumePhase opt env env.initSd = Except.ok (startEpoch, sd1, warns1))
    (hpre : pretrainedPhase opt env sd1 = Except.ok (sd2, warns2)) :
    mainRun opt env = Except.ok
      { startEpoch := startEpoch
        modelSd := sd2
        warnings := warns1 ++ warns2
        numBatches := batches.length
        epochs := pythonRange startEpoch (opt.nEpochs + 1)
        epochTraces :=
          (pythonRange startEpoch (opt.nEpochs + 1)).map (trainEpoch opt.rate batches) } := by
  simp [mainRun, hcuda, hds, hres, hpre]

/-! ### Properties of the batch loop -/

/-- Shape of every record the batch loop produces: the input is
`batch[0]`, the label is `batch[int(math.sqrt(rate))]`, a log event is
emitted iff the iteration counter is divisible by 10, with step index
`n * epoch + iteration`, and the counter is at least its start value. -/
theorem iterRecords_mem (rate n : Nat) (e : Int) :
    ∀ (bs : List Batch) (k : Nat) (r : IterRecord), r ∈ iterRecords rate n e k bs →
      r.input = r.batch[0]? ∧ r.label = r.batch[labelIndex rate]? ∧
      r.log = (if r.iteration % 10 = 0 then
                 some { name := "loss", step := (n : Int) * e + (r.iteration : Int) }
               else none) ∧
      k ≤ r.iteration
  | [], _, r, hr => absurd hr (by simp [iterRecords])
  | b :: bs, k, r, hr => by
    rw [iterRecords] at hr
    rcases List.mem_cons.mp hr with h | h
    · subst h
      refine ⟨rfl, rfl, rfl, le_refl k⟩
    · obtain ⟨h1, h2, h3, h4⟩ := iterRecords_mem rate n e bs (k + 1) r h
      exact ⟨h1, h2, h3, by omega⟩

/-- The iteration counters of one epoch are `k, k+1, ..., k+len-1` in
order. -/
theorem iterRecords_iteration_map (rate n : Nat) (e : Int) :
    ∀ (bs : List Batch) (k : Nat),
      (iterRecords rate n e k bs).map IterRecord.iteration =
        (List.range bs.length).map (fun i => i + k)
  | [], _ => by simp [iterRecords]
  | b :: bs, k => by
    rw [iterRecords, List.map_cons, iterRecords_iteration_map rate n e bs (k + 1)]
    rw [List.length_cons, List.range_succ_eq_map, List.map_cons, List.map_map]
    congr 1
    · dsimp only
      omega
    · apply List.map_congr_left
      intro i _
      simp only [Function.comp_apply, Nat.succ_eq_add_one]
      omega

/-- Every step index logged in the tail of an epoch starting at counter
`k` lies between `n*e + k` and `n*e + k - 1 + len`. -/
theorem iterRecords_steps_bounds (rate n : Nat) (e : Int) :
    ∀ (bs : List Batch) (k : Nat) (s : Int),
      s ∈ (iterRecords rate n e k bs).filterMap stepOf →
      (n : Int) * e + k ≤ s ∧ s ≤ (n : Int) * e + (k : Int) - 1 + bs.length
  | [], _, s, hs => absurd hs (by simp [iterRecords])
  | b :: bs, k, s, hs => by
    rw [iterRecords, List.filterMap_cons] at hs
    have htail : ∀ s ∈ (iterRecords rate n e (k + 1) bs).filterMap stepOf,
        (n : Int) * e + (k + 1 : Nat) ≤ s ∧
        s ≤ (n : Int) * e + ((k + 1 : Nat) : Int) - 1 + bs.length :=
      fun s hs => iterRecords_steps_bounds rate n e bs (k + 1) s hs
    simp only [List.length_cons]
    by_cases hk : k % 10 = 0
    · rw [if_pos hk] at hs
      simp only [stepOf, Option.map_some] at hs
      rcases List.mem_cons.mp hs with h | h
      · subst h
        have hlen : (0 : Int) ≤ (bs.length : Int) := Int.natCast_nonneg _
        dsimp only
        refine ⟨by omega, by push_cast; omega⟩
      · obtain ⟨h1, h2⟩ := htail s h
        push_cast at h1 h2 ⊢
        omega
    · rw [if_neg hk] at hs
      simp only [stepOf, Option.map_none] at hs
      obtain ⟨h1, h2⟩ := htail s hs
      push_cast at h1 h2 ⊢
      omega

/-- The step indices logged within one epoch are strictly increasing. -/
theorem iterRecords_steps_pairwise (rate n : Nat) (e : Int) :
    ∀ (bs : List Batch) (k : Nat),
      ((iterRecords rate n e k bs).filterMap stepOf).Pairwise (· < ·)
  | [], _ => by simp [iterRecords]
  | b :: bs, k => by
    rw [iterRecords, List.filterMap_cons]
    have htail := iterRecords_steps_pairwise rate n e bs (k + 1)
    by_cases hk : k % 10 = 0
    · rw [if_pos hk]
      simp only [stepOf, Option.map_some]
      refine List.pairwise_cons.mpr ⟨?_, htail⟩
      intro s hs
      have := (iterRecords_steps_bounds rate n e bs (k + 1) s hs).1
      push_cast at this ⊢
      omega
    · rw [if_neg hk]
      simpa only [stepOf, Option.map_none] using htail

/-- Bounds for the step indices of a whole epoch: with `n` batches they
lie in `(n*e, n*e + n]`. -/
theorem epoch_logSteps_bounds (rate : Nat) (bs : List Batch) (e : Int) (s : Int)
    (hs : s ∈ (trainEpoch rate bs e).logSteps) :
    (bs.length : Int) * e + 1 ≤ s ∧ s ≤ (bs.length : Int) * e + bs.length := by
  obtain ⟨h1, h2⟩ :=
    iterRecords_steps_bounds rate bs.length e bs 1 s hs
  push_cast at h1 h2
  exact ⟨by omega, by omega⟩

/-- The step indices of a run over strictly increasing epochs are
strictly increasing across the whole run. -/
theorem run_logSteps_pairwise (rate : Nat) (bs : List Batch) (epochs : List Int)
    (hp : epochs.Pairwise (· < ·)) :
    ((epochs.map (trainEpoch rate bs)).flatMap EpochTrace.logSteps).Pairwise (· < ·) := by
  induction epochs with
  | nil => simp
  | cons e rest ih =>
    rw [List.map_cons, List.flatMap_cons, List.pairwise_append]
    refine ⟨iterRecords_steps_pairwise rate bs.length e bs 1,
            ih (List.pairwise_cons.mp hp).2, ?_⟩
    intro x hx y hy
    obtain ⟨et, het, hyet⟩ := List.mem_flatMap.mp hy
    obtain ⟨e2, he2, rfl⟩ := List.mem_map.mp het
    have he : e < e2 := (List.pairwise_cons.mp hp).1 e2 he2
    have hxb := (epoch_logSteps_bounds rate bs e x hx).2
    have hyb := (epoch_logSteps_bounds rate bs e2 y hyet).1
    have hmul : (bs.length : Int) * (e + 1) ≤ (bs.length : Int) * e2 :=
      mul_le_mul_of_nonneg_left (by omega) (Int.natCast_nonneg bs.length)
    nlinarith [hxb, hyb, hmul]

/-! ### The claims -/

/-- C1: when `--resume` names an existing file, the model parameters
are loaded from the checkpoint's `"state_dict"` entry, the start epoch
becomes the checkpoint's stored epoch plus one, and the first epoch
executed after resume is checkpoint epoch + 1. -/
theorem resume_restores_state_and_advances_epoch
    (opt : Options) (env : Env) (t : RunTrace) (sd : StateDict)
    (hne : opt.resume ≠ "")
    (hfile : env.isFile opt.resume = true)
    (hraw : (env.load opt.resume).state_dict = SdEntry.raw sd)
    (hpre : opt.pretrained = "")
    (hok : mainRun opt env = Except.ok t) :
    t.modelSd = sd ∧
    t.startEpoch = (env.load opt.resume).epoch + 1 ∧
    ((env.load opt.resume).epoch + 1 ≤ opt.nEpochs →
      t.epochs.head? = some ((env.load opt.resume).epoch + 1)) := by
  obtain ⟨bs, s, sd1, w1, sd2, w2, hc, hds, hres, hp, rfl⟩ := mainRun_ok_inv opt env t hok
  rw [resumePhase_raw opt env env.initSd sd hne hfile hraw] at hres
  simp only [Except.ok.injEq, Prod.mk.injEq] at hres
  obtain ⟨hs, hsd, hw⟩ := hres
  subst hs hsd hw
  rw [pretrainedPhase_skip opt env sd hpre] at hp
  simp only [Except.ok.injEq, Prod.mk.injEq] at hp
  obtain ⟨hsd2, hw2⟩ := hp
  subst hsd2 hw2
  dsimp only
  refine ⟨rfl, rfl, fun h => pythonRange_head _ _ (by omega)⟩

/-- C2: the training loop executes exactly the epochs
`start_epoch, ..., nEpochs` in increasing order (consecutive
integers), and executes no epoch at all when `start_epoch > nEpochs`. -/
theorem epoch_loop_range (opt : Options) (env : Env) (t : RunTrace)
    (hok : mainRun opt env = Except.ok t) :
    t.epochs = pythonRange t.startEpoch (opt.nEpochs + 1) ∧
    (∀ e : Int, e ∈ t.epochs ↔ t.startEpoch ≤ e ∧ e ≤ opt.nEpochs) ∧
    t.epochs.Chain' (fun x y => y = x + 1) ∧
    (opt.nEpochs < t.startEpoch → t.epochs = []) := by
  obtain ⟨bs, s, sd1, w1, sd2, w2, hc, hds, hres, hp, rfl⟩ := mainRun_ok_inv opt env t hok
  dsimp only
  refine ⟨rfl, ?_, pythonRange_chain _ _, ?_⟩
  · intro e
    rw [mem_pythonRange]
    omega
  · intro h
    exact pythonRange_empty _ _ (by omega)

/-- C3: every executed epoch saves exactly one checkpoint, at the end of
that epoch, unconditionally, tagged with the epoch's number (the save
list is exactly the epoch list paired with the configured rate, and
depends on nothing else). -/
theorem checkpoint_saved_every_epoch (opt : Options) (env : Env) (t : RunTrace)
    (hok : mainRun opt env = Except.ok t) :
    t.saves = t.epochs.map (fun e => (opt.rate, e)) ∧
    t.epochTraces.map EpochTrace.epoch = t.epochs ∧
    (∀ et ∈ t.epochTraces, et.save = (opt.rate, et.epoch)) := by
  obtain ⟨bs, s, sd1, w1, sd2, w2, hc, hds, hres, hp, rfl⟩ := mainRun_ok_inv opt env t hok
  refine ⟨?_, ?_, ?_⟩
  · show ((pythonRange s (opt.nEpochs + 1)).map (trainEpoch opt.rate bs)).map EpochTrace.save =
      (pythonRange s (opt.nEpochs + 1)).map (fun e => (opt.rate, e))
    rw [List.map_map]
    rfl
  · show ((pythonRange s (opt.nEpochs + 1)).map (trainEpoch opt.rate bs)).map EpochTrace.epoch =
      pythonRange s (opt.nEpochs + 1)
    rw [List.map_map]
    exact List.map_id _
  · intro et het
    obtain ⟨e, he, rfl⟩ := List.mem_map.mp het
    rfl

/-- C4: when `--resume` and/or `--pretrained` name nonexistent paths,
the run prints a warning for each, continues without raising, keeps the
model's initial weights, and leaves the start epoch unchanged. -/
theorem missing_checkpoint_warns_and_continues (opt : Options) (env : Env)
    (hres : opt.resume ≠ "" → env.isFile opt.resume = false)
    (hpre : opt.pretrained ≠ "" → env.isFile opt.pretrained = false)
    (hsome : opt.resume ≠ "" ∨ opt.pretrained ≠ "")
    (hcuda : (opt.cuda && !env.cudaAvailable) = false)
    (bs : List Batch) (hds : env.dataset opt.datasets = Except.ok bs) :
    mainRun opt env = Except.ok
      { startEpoch := opt.start_epoch
        modelSd := env.initSd
        warnings :=
          (if opt.resume ≠ "" then ["=> no checkpoint found at " ++ opt.resume] else []) ++
          (if opt.pretrained ≠ "" then ["=> no model found at " ++ opt.pretrained] else [])
        numBatches := bs.length
        epochs := pythonRange opt.start_epoch (opt.nEpochs + 1)
        epochTraces :=
          (pythonRange opt.start_epoch (opt.nEpochs + 1)).map (trainEpoch opt.rate bs) } ∧
    ((if opt.resume ≠ "" then ["=> no checkpoint found at " ++ opt.resume] else []) ++
     (if opt.pretrained ≠ "" then ["=> no model found at " ++ opt.pretrained] else [])) ≠ [] := by
  by_cases h1 : opt.resume = ""
  · have h2 : opt.pretrained ≠ "" := by
      rcases hsome with h | h
      · exact absurd h1 h
      · exact h
    have hrun := mainRun_ok_build opt env bs opt.start_epoch env.initSd [] env.initSd
      ["=> no model found at " ++ opt.pretrained] hcuda hds
      (resumePhase_skip opt env env.initSd h1)
      (pretrainedPhase_missing opt env env.initSd h2 (hpre h2))
    refine ⟨?_, by simp [h1, h2]⟩
    rw [hrun]
    simp [h1, h2]
  · by_cases h2 : opt.pretrained = ""
    · have hrun := mainRun_ok_build opt env bs opt.start_epoch env.initSd
        ["=> no checkpoint found at " ++ opt.resume] env.initSd [] hcuda hds
        (resumePhase_missing opt env env.initSd h1 (hres h1))
        (pretrainedPhase_skip opt env env.initSd h2)
      refine ⟨?_, by simp [h1, h2]⟩
      rw [hrun]
      simp [h1, h2]
    · have hrun := mainRun_ok_build opt env bs opt.start_epoch env.initSd
        ["=> no checkpoint found at " ++ opt.resume] env.initSd
        ["=> no model found at " ++ opt.pretrained] hcuda hds
        (resumePhase_missing opt env env.initSd h1 (hres h1))
        (pretrainedPhase_missing opt env env.initSd h2 (hpre h2))
      refine ⟨?_, by simp [h1, h2]⟩
      rw [hrun]
      simp [h1, h2]

/-- C5: if `--cuda` is requested and no CUDA device is available, the
run raises immediately — the error does not depend on the dataset, the
model, or the loop, all of which come later in `main()`. -/
theorem cuda_unavailable_raises (opt : Options) (env : Env)
    (h1 : opt.cuda = true) (h2 : env.cudaAvailable = false) :
    mainRun opt env = Except.error MainError.noGPU := by
  simp [mainRun, h1, h2]

/-- C6: loss is logged to the `"loss"` stream exactly on iterations
divisible by 10, tagged with step `len(training_data_loader) * epoch +
iteration`, and the step indices of all log events of a run are
strictly increasing, across epoch boundaries included. -/
theorem loss_logging_steps (opt : Options) (env : Env) (t : RunTrace)
    (hok : mainRun opt env = Except.ok t) :
    (∀ et ∈ t.epochTraces,
       et.iters.map IterRecord.iteration = (List.range t.numBatches).map (fun i => i + 1) ∧
       ∀ r ∈ et.iters,
         r.log = (if r.iteration % 10 = 0 then
                    some { name := "loss",
                           step := (t.numBatches : Int) * et.epoch + (r.iteration : Int) }
                  else none)) ∧
    t.logSteps.Pairwise (· < ·) := by
  obtain ⟨bs, s, sd1, w1, sd2, w2, hc, hds, hres, hp, rfl⟩ := mainRun_ok_inv opt env t hok
  constructor
  · intro et het
    obtain ⟨e, he, rfl⟩ := List.mem_map.mp het
    refine ⟨iterRecords_iteration_map opt.rate bs.length e bs 1, ?_⟩
    intro r hr
    exact (iterRecords_mem opt.rate bs.length e bs 1 r hr).2.2.1
  · exact run_logSteps_pairwise opt.rate bs (pythonRange s (opt.nEpochs + 1))
      (pythonRange_pairwise _ _)

/-- C7: when `--pretrained` names an existing file, only model weights
change, read from a nested model object's own state dict
(`weights['state_dict'].state_dict()`); the start epoch is untouched.
The wrapper shape differs from the resume path: the same file holding a
resume-style plain state dict makes the pretrained path raise. -/
theorem pretrained_loads_nested_weights
    (opt : Options) (env env2 : Env) (t : RunTrace) (m : ModelObj) (sd : StateDict)
    (hne : opt.pretrained ≠ "")
    (hres : opt.resume = "")
    (hfile : env.isFile opt.pretrained = true)
    (hwrap : (env.load opt.pretrained).state_dict = SdEntry.wrapped m)
    (hok : mainRun opt env = Except.ok t)
    (hcuda2 : (opt.cuda && !env2.cudaAvailable) = false)
    (hfile2 : env2.isFile opt.pretrained = true)
    (hraw2 : (env2.load opt.pretrained).state_dict = SdEntry.raw sd)
    (bs2 : List Batch) (hds2 : env2.dataset opt.datasets = Except.ok bs2) :
    t.modelSd = m.sd ∧ t.startEpoch = opt.start_epoch ∧
    mainRun opt env2 =
      Except.error (MainError.loadTypeError "state dict object has no attribute state_dict") := by
  obtain ⟨bs, s, sd1, w1, sd2, w2, hc, hds, hresP, hp, rfl⟩ := mainRun_ok_inv opt env t hok
  rw [resumePhase_skip opt env env.initSd hres] at hresP
  simp only [Except.ok.injEq, Prod.mk.injEq] at hresP
  obtain ⟨hs, hsd1, hw1⟩ := hresP
  subst hs hsd1 hw1
  rw [pretrainedPhase_wrapped opt env env.initSd m hne hfile hwrap] at hp
  simp only [Except.ok.injEq, Prod.mk.injEq] at hp
  obtain ⟨hsd2, hw2⟩ := hp
  subst hsd2 hw2
  refine ⟨rfl, rfl, ?_⟩
  simp [mainRun, hcuda2, hds2, resumePhase_skip opt env2 env2.initSd hres,
    pretrainedPhase_raw opt env2 env2.initSd sd hne hfile2 hraw2]

/-- C8: a dataset that fails to load makes the run abort with that
error, before any epoch of the training loop: the result carries no
trace at all.  The dataset adapter itself lives in `data.py` (not among
the visible sources) and is modelled from the spec as failing at
construction or first access. -/
theorem missing_dataset_aborts (opt : Options) (env : Env) (msg : String)
    (hcuda : (opt.cuda && !env.cudaAvailable) = false)
    (hds : env.dataset opt.datasets = Except.error msg) :
    mainRun opt env = Except.error (MainError.datasetError msg) := by
  simp [mainRun, hcuda, hds]

/-- C9: every iteration takes its input from `batch[0]` and its label
from `batch[int(math.sqrt(rate))]`, which is index 1 for rate 2 or 3
and index 2 for rate 4. -/
theorem label_index_by_sqrt_rate (opt : Options) (env : Env) (t : RunTrace)
    (hok : mainRun opt env = Except.ok t) :
    ∀ et ∈ t.epochTraces, ∀ r ∈ et.iters,
      r.input = r.batch[0]? ∧
      r.label = r.batch[labelIndex opt.rate]? ∧
      ((opt.rate = 2 ∨ opt.rate = 3) → r.label = r.batch[1]?) ∧
      (opt.rate = 4 → r.label = r.batch[2]?) := by
  have hs2 : labelIndex 2 = 1 := by
    have ha : 1 ≤ Nat.sqrt 2 := Nat.le_sqrt.mpr (by norm_num)
    have hb : Nat.sqrt 2 < 2 := Nat.sqrt_lt.mpr (by norm_num)
    unfold labelIndex
    omega
  have hs3 : labelIndex 3 = 1 := by
    have ha : 1 ≤ Nat.sqrt 3 := Nat.le_sqrt.mpr (by norm_num)
    have hb : Nat.sqrt 3 < 2 := Nat.sqrt_lt.mpr (by norm_num)
    unfold labelIndex
    omega
  have hs4 : labelIndex 4 = 2 := by
    have ha : 2 ≤ Nat.sqrt 4 := Nat.le_sqrt.mpr (by norm_num)
    have hb : Nat.sqrt 4 < 3 := Nat.sqrt_lt.mpr (by norm_num)
    unfold labelIndex
    omega
  obtain ⟨bs, s, sd1, w1, sd2, w2, hc, hds, hres, hp, rfl⟩ := mainRun_ok_inv opt env t hok
  intro et het r hr
  obtain ⟨e, he, rfl⟩ := List.mem_map.mp het
  obtain ⟨h1, h2, h3, h4⟩ := iterRecords_mem opt.rate bs.length e bs 1 r hr
  refine ⟨h1, h2, ?_, ?_⟩
  · intro hrate
    rcases hrate with h | h
    · rw [h, hs2] at h2
      rw [h2]
    · rw [h, hs3] at h2
      rw [h2]
  · intro h
    rw [h, hs4] at h2
    rw [h2]

/-- C10: whenever `--resume` names an existing checkpoint file, the
`--start-epoch` flag has no effect — the start epoch is unconditionally
the checkpoint's epoch + 1 regardless of `opt.start_epoch`; the manual
value is honored exactly when no resume checkpoint is loaded. -/
theorem resume_overrides_start_epoch
    (opt : Options) (env : Env) (t : RunTrace) (sd : StateDict)
    (hne : opt.resume ≠ "")
    (hfile : env.isFile opt.resume = true)
    (hraw : (env.load opt.resume).state_dict = SdEntry.raw sd)
    (hok : mainRun opt env = Except.ok t) :
    t.startEpoch = (env.load opt.resume).epoch + 1 ∧
    (∀ (opt2 : Options) (env2 : Env) (t2 : RunTrace),
      (opt2.resume = "" ∨ env2.isFile opt2.resume = false) →
      mainRun opt2 env2 = Except.ok t2 → t2.startEpoch = opt2.start_epoch) := by
  constructor
  · obtain ⟨bs, s, sd1, w1, sd2, w2, hc, hds, hres, hp, rfl⟩ := mainRun_ok_inv opt env t hok
    rw [resumePhase_raw opt env env.initSd sd hne hfile hraw] at hres
    simp only [Except.ok.injEq, Prod.mk.injEq] at hres
    obtain ⟨hs, hsd, hw⟩ := hres
    subst hs
    rfl
  · intro opt2 env2 t2 hno hok2
    obtain ⟨bs2, s2, sd1b, w1b, sd2b, w2b, hc2, hds2, hres2, hp2, rfl⟩ :=
      mainRun_ok_inv opt2 env2 t2 hok2
    rcases hno with h | h
    · rw [resumePhase_skip opt2 env2 env2.initSd h] at hres2
      simp only [Except.ok.injEq, Prod.mk.injEq] at hres2
      exact hres2.1.symm
    · by_cases h2 : opt2.resume = ""
      · rw [resumePhase_skip opt2 env2 env2.initSd h2] at hres2
        simp only [Except.ok.injEq, Prod.mk.injEq] at hres2
        exact hres2.1.symm
      · rw [resumePhase_missing opt2 env2 env2.initSd h2 h] at hres2
        simp only [Except.ok.injEq, Prod.mk.injEq] at hres2
        exact hres2.1.symm

/-! ### Witnesses: the theorems applied at closed, concrete runs -/

/-- C1 at a concrete run: resuming from the epoch-3 checkpoint loads
its weights, starts at epoch 4, and epoch 4 runs first. -/
theorem resume_restores_state_and_advances_epoch_witness :
    traceResume.modelSd = sdCkpt ∧
    traceResume.startEpoch = (envResume.load optResume.resume).epoch + 1 ∧
    traceResume.epochs.head? = some ((envResume.load optResume.resume).epoch + 1) := by
  have h := resume_restores_state_and_advances_epoch optResume envResume traceResume sdCkpt
    (by decide) rfl rfl rfl rfl
  exact ⟨h.1, h.2.1, h.2.2 (by decide)⟩

/-- C2 at a concrete run: two epochs, `[1, 2]`, consecutive. -/
theorem epoch_loop_range_witness :
    tracePlain.epochs = pythonRange tracePlain.startEpoch (optPlain.nEpochs + 1) ∧
    ((2 : Int) ∈ tracePlain.epochs ↔ tracePlain.startEpoch ≤ 2 ∧ 2 ≤ optPlain.nEpochs) ∧
    tracePlain.epochs.Chain' (fun x y => y = x + 1) := by
  have h := epoch_loop_range optPlain envPlain tracePlain rfl
  exact ⟨h.1, h.2.1 2, h.2.2.1⟩

/-- C3 at a concrete run: one save per epoch, tagged `(rate, epoch)`. -/
theorem checkpoint_saved_every_epoch_witness :
    tracePlain.saves = tracePlain.epochs.map (fun e => (optPlain.rate, e)) ∧
    tracePlain.epochTraces.map EpochTrace.epoch = tracePlain.epochs ∧
    (trainEpoch 2 bigBatches 1).save = (optPlain.rate, (trainEpoch 2 bigBatches 1).epoch) := by
  have h := checkpoint_saved_every_epoch optPlain envPlain tracePlain rfl
  exact ⟨h.1, h.2.1, h.2.2 (trainEpoch 2 bigBatches 1) (List.mem_cons_self _ _)⟩

/-- C4 at a concrete run: both flags name absent files, the run
completes with both warnings and untouched weights and start epoch. -/
theorem missing_checkpoint_warns_and_continues_witness :
    mainRun optMissing envMissing = Except.ok traceMissing ∧ traceMissing.warnings ≠ [] := by
  have h := missing_checkpoint_warns_and_continues optMissing envMissing
    (fun _ => rfl) (fun _ => rfl) (Or.inl (by decide)) rfl demoBatches rfl
  exact ⟨h.1, h.2⟩

/-- C5 at a concrete run: `--cuda` with no device raises at once. -/
theorem cuda_unavailable_raises_witness :
    mainRun optCuda envNoGPU = Except.error MainError.noGPU :=
  cuda_unavailable_raises optCuda envNoGPU rfl rfl

/-- C6 at a concrete run: iteration counters are `1..12`, the first
iteration logs nothing, and all logged steps are increasing. -/
theorem loss_logging_steps_witness :
    (trainEpoch 2 bigBatches 1).iters.map IterRecord.iteration =
      (List.range tracePlain.numBatches).map (fun i => i + 1) ∧
    iterDemoPlain.log = (if iterDemoPlain.iteration % 10 = 0 then
        some { name := "loss",
               step := (tracePlain.numBatches : Int) * (trainEpoch 2 bigBatches 1).epoch +
                 (iterDemoPlain.iteration : Int) }
      else none) ∧
    tracePlain.logSteps.Pairwise (· < ·) := by
  have h := loss_logging_steps optPlain envPlain tracePlain rfl
  have ha := h.1 (trainEpoch 2 bigBatches 1) (List.mem_cons_self _ _)
  exact ⟨ha.1, ha.2 iterDemoPlain (List.mem_cons_self _ _), h.2⟩

/-- C7 at a concrete run: the wrapped checkpoint's inner weights are
loaded and the start epoch is untouched; the same path holding a plain
state dict makes the pretrained path raise. -/
theorem pretrained_loads_nested_weights_witness :
    tracePre.modelSd = sdPre ∧ tracePre.startEpoch = optPre.start_epoch ∧
    mainRun optPre envPreRaw =
      Except.error (MainError.loadTypeError "state dict object has no attribute state_dict") :=
  pretrained_loads_nested_weights optPre envPre envPreRaw tracePre { sd := sdPre } sdCkpt
    (by decide) rfl rfl rfl rfl rfl rfl rfl demoBatches rfl

/-- C8 at a concrete run: a failing dataset aborts the run with that
error. -/
theorem missing_dataset_aborts_witness :
    mainRun optData envBadData = Except.error (MainError.datasetError "unable to open file") :=
  missing_dataset_aborts optData envBadData "unable to open file" rfl rfl

/-- C9 at a concrete iteration: input is `batch[0]`, label is
`batch[1]` since the rate is 2. -/
theorem label_index_by_sqrt_rate_witness :
    iterDemoResume.input = iterDemoResume.batch[0]? ∧
    iterDemoResume.label = iterDemoResume.batch[labelIndex optResume.rate]? ∧
    ((optResume.rate = 2 ∨ optResume.rate = 3) →
      iterDemoResume.label = iterDemoResume.batch[1]?) ∧
    (optResume.rate = 4 → iterDemoResume.label = iterDemoResume.batch[2]?) :=
  label_index_by_sqrt_rate optResume envResume traceResume rfl
    (trainEpoch 2 demoBatches 4) (List.mem_cons_self _ _)
    iterDemoResume (List.mem_cons_self _ _)

/-- C10 at concrete runs: with a resume checkpoint at epoch 3 the start
epoch is 4 even though `--start-epoch 100` was passed; without one the
manual value is used. -/
theorem resume_overrides_start_epoch_witness :
    traceResume.startEpoch = (envResume.load optResume.resume).epoch + 1 ∧
    tracePlain.startEpoch = optPlain.start_epoch := by
  have h := resume_overrides_start_epoch optResume envResume traceResume sdCkpt
    (by decide) rfl rfl rfl
  exact ⟨h.1, h.2 optPlain envPlain tracePlain (Or.inl rfl) rfl⟩

end SrSENet
